import Mathlib

/-!
Verification development for the pytest-publish plugin
(source file: src/pytest_publish.py).

The Python source is shallowly embedded below: pure fragments become Lean
functions, the filesystem effects of the "pubdir" machinery become explicit
state passing over a `PubFS` record, and the per-bucket file lock is
reflected by the fact that each allocation is modelled as one atomic
state-transforming step (the lock serializes the read-modify-write of the
counter file, so any concurrent schedule is equivalent to the sequence of
steps in lock-grant order).

Python strings are modelled as Lean `String` restricted to their ASCII
behavior; Python float values (timestamps and durations) are modelled as
rationals, which is exact for the structural properties proved here.
-/

set_option maxHeartbeats 1000000

/-! ## Python string primitives used by the source -/

/-- Whitespace characters removed by Python str.strip and str.rstrip
(ASCII model). -/
def isPySpace (c : Char) : Bool :=
  c.toNat = 32 || c.toNat = 9 || c.toNat = 10 || c.toNat = 11 ||
    c.toNat = 12 || c.toNat = 13

/-- Python str.strip(): remove leading and trailing whitespace. -/
def pyStrip (s : String) : String :=
  ⟨((s.data.dropWhile isPySpace).reverse.dropWhile isPySpace).reverse⟩

/-- Python str.rstrip(): remove trailing whitespace. -/
def pyRstrip (s : String) : String :=
  ⟨(s.data.reverse.dropWhile isPySpace).reverse⟩

/-- Python str.isdigit() (ASCII model): nonempty and all decimal digits. -/
def pyIsdigit (s : String) : Bool :=
  !s.data.isEmpty && s.data.all Char.isDigit

/-- Numeric value of a decimal digit character. -/
def digitVal (c : Char) : Nat := c.toNat - 48

/-- Python int() applied to a string of decimal digits. -/
def pyInt (s : String) : Nat :=
  s.data.foldl (fun n c => n * 10 + digitVal c) 0

/-- Decimal digit characters of a natural number, most significant first. -/
def natToDigitChars (n : Nat) : List Char :=
  if n < 10 then [Char.ofNat (48 + n)]
  else natToDigitChars (n / 10) ++ [Char.ofNat (48 + n % 10)]
termination_by n
decreasing_by exact Nat.div_lt_self (by omega) (by omega)

/-- Python str() applied to a non-negative int: its decimal numeral. -/
def pyStr (n : Nat) : String := ⟨natToDigitChars n⟩

/-- Python truthiness of an optional string: None and the empty string are
falsy, every other string is truthy. -/
def truthyOptStr : Option String → Bool
  | none => false
  | some s => !(s == "")

/-- os.path.join for the simple relative components used by the plugin. -/
def pathJoin (a b : String) : String := a ++ "/" ++ b

/-! ## SequenceAllocator: generate_test_pubdir_path
(src/pytest_publish.py lines 67-88) -/

/-- The directory-tree state touched by the plugin: for every bucket path,
the content of its "count" file (none while the file does not exist), plus
the list of leaf directories created by the pubdir sink. -/
structure PubFS where
  counters : String → Option String
  leafDirs : List String

/-- The empty pubdir root: no counter file exists yet, no leaf written. -/
def fsEmpty : PubFS := ⟨fun _ => none, []⟩

/-- Counter read performed inside the lock (lines 80-84): a missing file is
0; otherwise the content is stripped and, if the result is all digits,
parsed with int(), else 0. -/
def readCount : Option String → Nat
  | none => 0
  | some content =>
    let t := pyStrip content
    if pyIsdigit t then pyInt t else 0

/-- Embedding of generate_test_pubdir_path (lines 67-88).  The FileLock
around the read-modify-write makes the whole body one atomic step, which is
how it is modelled here.  Returns the leaf path f"{count}.{result}" joined
onto the bucket, together with the updated filesystem. -/
def generate_test_pubdir_path (fs : PubFS) (pubdir_path test_name result : String)
    (xdist_scope : Option String) : String × PubFS :=
  let p1 := if truthyOptStr xdist_scope then
      pathJoin pubdir_path ((xdist_scope).getD "") else pubdir_path
  let bucket := pathJoin p1 test_name
  let count := readCount (fs.counters bucket)
  let counters2 := fun p => if p = bucket then some (pyStr (count + 1)) else fs.counters p
  (pathJoin bucket (pyStr count ++ "." ++ result), ⟨counters2, fs.leafDirs⟩)

/-- Embedding of should_pubdir_test (lines 91-97). -/
def should_pubdir_test (pubdir_filter result : String) : Bool :=
  if pubdir_filter = "all" then true
  else if pubdir_filter = "fail" then result == "fail"
  else !(result == "pass")

/-! ## ResultBuilder: create_result (lines 100-154) -/

/-- The error descriptor supplied by the execution engine (pytest CallInfo
excinfo): whether the raised error is the reserved skip signal
(errisinstance of skip.Exception), the error type name, str() of the error
value, and the formatted traceback frames. -/
structure ExcDescriptor where
  isSkipExc : Bool
  typeName : String
  valueStr : String
  formattedTb : List String
deriving DecidableEq

/-- TestResult.ExcInfo (lines 18-23). -/
structure ExcInfo where
  type : String
  value : String
  traceback : List String
deriving DecidableEq

/-- TestResult (lines 15-39).  Python float timestamps are modelled as
rationals. -/
structure TestResult where
  type : String
  result : String
  nodeid : String
  name : String
  start_time : ℚ
  stop_time : ℚ
  duration : ℚ
  stdout : String
  stderr : String
  log : String
  xdist_dist : Option String
  xdist_worker : Option String
  xdist_scope : Option String
  pubdir_path : Option String
  excinfo : Option ExcInfo := none
deriving DecidableEq

/-- Characters of s after the last occurrence of the marker char. -/
def afterLastAt (s : String) : String :=
  ⟨(s.data.reverse.takeWhile (fun c => !(c == '@'))).reverse⟩

/-- Modelled from the spec: LoadGroupScheduling._split_scope belongs to the
external pytest-xdist package and is not part of src/.  Per the spec
(ScopeResolver, section 4.1), under loadgroup the test identifier may carry
a trailing group tag delimited by the reserved marker "@" and the scope is
exactly that tag; an identifier without a tag is its own scope (each such
test forms its own group). -/
def split_scope (nodeid : String) : String :=
  if nodeid.data.contains '@' then afterLastAt nodeid else nodeid

/-- Python name[: name.rfind("@")] (line 120): when "@" occurs, keep the
characters before its last occurrence; when it does not occur, rfind
returns -1 and the slice drops the final character. -/
def nameStripGroupTag (name : String) : String :=
  if name.data.contains '@' then
    ⟨(name.data.reverse.dropWhile (fun c => !(c == '@'))).reverse.dropLast⟩
  else
    ⟨name.data.dropLast⟩

/-- Python str.split("::") at the character level: scan left to right,
each non-overlapping occurrence of "::" closes the current segment. -/
def splitOnColonColon : List Char → List (List Char)
  | [] => [[]]
  | ':' :: ':' :: rest => [] :: splitOnColonColon rest
  | c :: rest =>
    match splitOnColonColon rest with
    | [] => [[c]]
    | seg :: segs => (c :: seg) :: segs

/-- Python nodeid.split("::")[-1]. -/
def lastSegment (nodeid : String) : String :=
  ⟨(splitOnColonColon nodeid.data).getLastD []⟩

/-- Embedding of create_result (lines 100-154).  Ambient inputs of the
Python code are explicit parameters: excinfo is call.excinfo, envWorker is
os.environ.get("PYTEST_XDIST_WORKER"), dist is workerinput["dist"] (read
only when a worker is active), pubdir_filter is the pubdir_filter option
consulted through should_pubdir_test. -/
def create_result (nodeid : String) (excinfo : Option ExcDescriptor)
    (envWorker : Option String) (dist : String)
    (startT stopT durT : ℚ) (capstdout capstderr caplog : String)
    (pubdir_filter : String) (pubdir_path : Option String) (fs : PubFS) :
    TestResult × PubFS :=
  let result := match excinfo with
    | none => "pass"
    | some e => if e.isSkipExc then "skip" else "fail"
  let name0 := lastSegment nodeid
  let xdist_dist : Option String :=
    if truthyOptStr envWorker then some dist else none
  let xdist_scope : Option String :=
    if truthyOptStr envWorker && dist == "loadgroup" then
      some (split_scope nodeid) else none
  let name :=
    if truthyOptStr envWorker && dist == "loadgroup" then
      nameStripGroupTag name0 else name0
  let gen :=
    if truthyOptStr pubdir_path then
      some (generate_test_pubdir_path fs (pubdir_path.getD "") name result xdist_scope)
    else none
  let fs2 := match gen with
    | some g => g.2
    | none => fs
  let test_pubdir_path := match gen with
    | some g => if should_pubdir_test pubdir_filter result then some g.1 else none
    | none => none
  let exc : Option ExcInfo := match excinfo with
    | some e => if result == "pass" then none
        else some ⟨e.typeName, e.valueStr, e.formattedTb⟩
    | none => none
  (⟨"result", result, nodeid, name, startT, stopT, durT,
    capstdout, capstderr, caplog,
    xdist_dist, envWorker, xdist_scope, test_pubdir_path, exc⟩, fs2)

/-! ## DirectorySink: _header and pubdir (lines 157-216) -/

/-- A string of n copies of one character. -/
def strRepl (c : Char) (n : Nat) : String := ⟨List.replicate n c⟩

/-- Embedding of _header (lines 170-178).  width is a Python int and may be
negative, hence the Int arithmetic; in the banner branch width is at least
3, so the ceil and floor of width/2 are the Int divisions shown. -/
def _header (title : String) : String :=
  let width : Int := 66 - (title.length : Int) - 2
  if width ≤ 2 then title
  else
    strRepl '=' ((width + 1) / 2).toNat ++ " " ++ title ++ " " ++
      strRepl '=' (width / 2).toNat

/-- The banner formula exactly as the spec states it, for comparison with
_header: "=" repeated ceil((66-len(title)-2)/2), a space, the title, a
space, "=" repeated floor((66-len(title)-2)/2). -/
def bannerFormula (title : String) : String :=
  let width : Int := 66 - (title.length : Int) - 2
  strRepl '=' ((width + 1) / 2).toNat ++ " " ++ title ++ " " ++
    strRepl '=' (width / 2).toNat

/-- Stand-in for the textual rendering of a Python float (used only in the
"duration: {...}s" line, whose exact numeric text no claim depends on). -/
def floatRepr (q : ℚ) : String := toString q

/-- Content of brief.txt as written by pubdir, split into its five
sections in the fixed order the code writes them (general test info,
exception, stdout, stderr, log); a section that the code does not enter is
none.  Each list element is the argument of one _print call, after the
rstrip that _print applies. -/
structure Brief where
  general : List String
  exceptionSec : Option (List String)
  stdoutSec : Option (List String)
  stderrSec : Option (List String)
  logSec : Option (List String)
deriving DecidableEq

/-- Embedding of pubdir (lines 157-216): returns without effect unless the
record carries a (truthy) pubdir_path; otherwise creates the leaf directory
and writes brief.txt, whose lines are modelled by Brief.  The side files
(exception.txt, stdout.txt, ...) receive exactly the non-header lines of
the corresponding section and are not modelled separately. -/
def pubdir (r : TestResult) (fs : PubFS) : PubFS × Option Brief :=
  if !truthyOptStr r.pubdir_path then (fs, none)
  else
    let leaf := r.pubdir_path.getD ""
    let general :=
      [pyRstrip (_header "general test info"),
       pyRstrip ("test: " ++ r.nodeid)]
      ++ (if truthyOptStr r.xdist_scope then
            [pyRstrip ("xdist-scope: " ++ r.xdist_scope.getD "")] else [])
      ++ [pyRstrip ("result: " ++ r.result),
          pyRstrip ("duration: " ++ floatRepr r.duration ++ "s")]
      ++ (if truthyOptStr r.xdist_worker then
            [pyRstrip ("xdist-node: " ++ r.xdist_worker.getD "")] else [])
      ++ (if truthyOptStr r.xdist_dist && !(r.xdist_dist.getD "" == "no") then
            [pyRstrip ("xdist-dist: " ++ r.xdist_dist.getD "")] else [])
    let excSec := match r.excinfo with
      | none => none
      | some e => some
          [pyRstrip (_header "exception"),
           pyRstrip (String.join e.traceback),
           if !(e.value == "") then pyRstrip (e.type ++ ": " ++ e.value)
           else pyRstrip e.type]
    let stdoutSec := if !(r.stdout == "") then
        some [pyRstrip (_header "stdout"), pyRstrip r.stdout] else none
    let stderrSec := if !(r.stderr == "") then
        some [pyRstrip (_header "stderr"), pyRstrip r.stderr] else none
    let logSec := if !(r.log == "") then
        some [pyRstrip (_header "log"), pyRstrip r.log] else none
    (⟨fs.counters, leaf :: fs.leafDirs⟩,
     some ⟨general, excSec, stdoutSec, stderrSec, logSec⟩)

/-! ## Persisted structured form of a TestResult (result.json / network
dump, lines 215-216 and 237).

The dataclasses-json to_dict used by the source maps a dataclass to a dict
keyed by field name; an Optional string field is the string or null.  The
excinfo field, which carries a default of None, is omitted from the dump
when it is None: the plugin test suite relies on exactly this shape
(src/test.py line 95 asserts that "excinfo" is not a key of a published
pass record, while line 94 asserts that "xdist_worker" maps to null).
The inverse direction, from_dict, reconstructs a missing or null excinfo
as None. -/

/-- A JSON-like structured value. -/
inductive JVal where
  | jnull : JVal
  | jstr : String → JVal
  | jnum : ℚ → JVal
  | jarr : List JVal → JVal
  | jobj : List (String × JVal) → JVal

/-- Encoding of an optional string field. -/
def optStrToJ : Option String → JVal
  | none => JVal.jnull
  | some s => JVal.jstr s

/-- Dict form of a TestResult.ExcInfo. -/
def excInfoToDict (e : ExcInfo) : JVal :=
  JVal.jobj
    [("type", JVal.jstr e.type),
     ("value", JVal.jstr e.value),
     ("traceback", JVal.jarr (e.traceback.map JVal.jstr))]

/-- Dict form of a TestResult (result.to_dict()): one key per dataclass
field, the excinfo key omitted when excinfo is None. -/
def testResultToDict (r : TestResult) : JVal :=
  JVal.jobj
    ([("type", JVal.jstr r.type),
      ("result", JVal.jstr r.result),
      ("nodeid", JVal.jstr r.nodeid),
      ("name", JVal.jstr r.name),
      ("start_time", JVal.jnum r.start_time),
      ("stop_time", JVal.jnum r.stop_time),
      ("duration", JVal.jnum r.duration),
      ("stdout", JVal.jstr r.stdout),
      ("stderr", JVal.jstr r.stderr),
      ("log", JVal.jstr r.log),
      ("xdist_dist", optStrToJ r.xdist_dist),
      ("xdist_worker", optStrToJ r.xdist_worker),
      ("xdist_scope", optStrToJ r.xdist_scope),
      ("pubdir_path", optStrToJ r.pubdir_path)]
     ++ (match r.excinfo with
         | none => []
         | some e => [("excinfo", excInfoToDict e)]))

/-- Field lookup in a dict. -/
def getField (fields : List (String × JVal)) (k : String) : Option JVal :=
  (fields.find? (fun kv => kv.1 == k)).map (fun kv => kv.2)

/-- Parse a string value. -/
def asStr : JVal → Option String
  | JVal.jstr s => some s
  | _ => none

/-- Parse a numeric value. -/
def asNum : JVal → Option ℚ
  | JVal.jnum q => some q
  | _ => none

/-- Parse an optional-string value (null or string). -/
def asOptStr : JVal → Option (Option String)
  | JVal.jnull => some none
  | JVal.jstr s => some (some s)
  | _ => none

/-- Parse each element of a list as a string, failing if any is not one. -/
def strListOf : List JVal → Option (List String)
  | [] => some []
  | v :: vs =>
    match asStr v, strListOf vs with
    | some s, some ss => some (s :: ss)
    | _, _ => none

/-- Parse a list of strings. -/
def asStrList : JVal → Option (List String)
  | JVal.jarr xs => strListOf xs
  | _ => none

/-- Parse an ExcInfo from its dict form. -/
def excInfoFromDict : JVal → Option ExcInfo
  | JVal.jobj fields => do
    let t ← getField fields "type" >>= asStr
    let v ← getField fields "value" >>= asStr
    let tb ← getField fields "traceback" >>= asStrList
    some ⟨t, v, tb⟩
  | _ => none

/-- Parse the excinfo field: a missing or null excinfo key reconstructs
the None default of the dataclass. -/
def excFieldFromDict (v : Option JVal) : Option (Option ExcInfo) :=
  match v with
  | none => some none
  | some JVal.jnull => some none
  | some w => Option.map some (excInfoFromDict w)

/-- Parse a string-valued field of the dict. -/
def strField (fields : List (String × JVal)) (k : String) : Option String :=
  Option.bind (getField fields k) asStr

/-- Parse a numeric field of the dict. -/
def numField (fields : List (String × JVal)) (k : String) : Option ℚ :=
  Option.bind (getField fields k) asNum

/-- Parse an optional-string field of the dict. -/
def optStrField (fields : List (String × JVal)) (k : String) :
    Option (Option String) :=
  Option.bind (getField fields k) asOptStr

/-- Parse a TestResult from its dict form (TestResult.from_dict). -/
def testResultFromDict : JVal → Option TestResult
  | JVal.jobj fields =>
    match strField fields "type", strField fields "result",
        strField fields "nodeid", strField fields "name",
        numField fields "start_time", numField fields "stop_time",
        numField fields "duration", strField fields "stdout",
        strField fields "stderr", strField fields "log",
        optStrField fields "xdist_dist", optStrField fields "xdist_worker",
        optStrField fields "xdist_scope", optStrField fields "pubdir_path",
        excFieldFromDict (getField fields "excinfo") with
    | some ty, some res, some nid, some nm, some st, some sp, some du,
      some so, some se, some lg, some xd, some xw, some xs, some pp,
      some exc =>
        some (TestResult.mk ty res nid nm st sp du so se lg xd xw xs pp exc)
    | _, _, _, _, _, _, _, _, _, _, _, _, _, _, _ => none
  | _ => none

/-! ## Dispatcher: pytest_runtest_makereport (lines 219-237)

The hook body performs, in program order: the option checks, create_result
(which performs the sequence allocation when a pubdir root is configured),
pubdir (which materializes the leaf when the record carries a destination
path), and finally one requests.post when a publish url is configured.
Filesystem operations can raise; the source contains no handler, so an
exception propagates out of the hook and aborts the rest of the body.  The
two Boolean oracles allocRaises and leafRaises model the environment
making the allocation step, respectively the leaf-writing step, fail. -/

/-- Externally visible actions of one dispatch, in program order. -/
inductive SinkEvent where
  | alloc : String → SinkEvent
  | leafWrite : String → SinkEvent
  | post : String → SinkEvent
deriving DecidableEq

/-- Number of network posts in a trace. -/
def countPosts (tr : List SinkEvent) : Nat :=
  tr.countP (fun e => match e with | SinkEvent.post _ => true | _ => false)

/-- Outcome of one pytest_runtest_makereport dispatch: the events that
happened (in order), whether an exception propagated out of the hook, the
resulting filesystem, and the built record when one was built. -/
structure DispatchOutcome where
  events : List SinkEvent
  failed : Bool
  fs : PubFS
  record : Option TestResult

/-- Embedding of pytest_runtest_makereport (lines 219-237). -/
def pytest_runtest_makereport (whenIsCall : Bool)
    (publishUrl pubdirPath : Option String)
    (nodeid : String) (excinfo : Option ExcDescriptor)
    (envWorker : Option String) (dist : String)
    (startT stopT durT : ℚ) (capstdout capstderr caplog : String)
    (pubdir_filter : String) (allocRaises leafRaises : Bool)
    (fs : PubFS) : DispatchOutcome :=
  if !whenIsCall then ⟨[], false, fs, none⟩
  else if !truthyOptStr publishUrl && !truthyOptStr pubdirPath then
    ⟨[], false, fs, none⟩
  else if truthyOptStr pubdirPath && allocRaises then
    ⟨[], true, fs, none⟩
  else
    let cr := create_result nodeid excinfo envWorker dist startT stopT durT
        capstdout capstderr caplog pubdir_filter pubdirPath fs
    let r := cr.1
    let allocEvents := if truthyOptStr pubdirPath then [SinkEvent.alloc "bucket"] else []
    if truthyOptStr r.pubdir_path && leafRaises then
      ⟨allocEvents, true, cr.2, some r⟩
    else
      let pb := pubdir r cr.2
      let leafEvents := if truthyOptStr r.pubdir_path then
          [SinkEvent.leafWrite (r.pubdir_path.getD "")] else []
      let postEvents := if truthyOptStr publishUrl then
          [SinkEvent.post (publishUrl.getD "")] else []
      ⟨allocEvents ++ leafEvents ++ postEvents, false, pb.1, some r⟩

/-! ## Claim-side definitions used by counterexamples -/

/-- The counter-read rule exactly as the claim states it: a missing file,
or content that is not a non-negative decimal numeral, is treated as 0. -/
def claimCounterRead : Option String → Nat
  | none => 0
  | some content => if pyIsdigit content then pyInt content else 0

/-- A bucket whose counter file holds " 7": whitespace-padded content that
is not itself a decimal numeral. -/
def fsPadded : PubFS :=
  ⟨fun p => if p = "root/t" then some " 7" else none, []⟩

/-- A 62-character section title, long enough that _header takes its bare
branch. -/
def longTitle : String := ⟨List.replicate 62 'a'⟩

/-- A record whose xdist_scope is present but empty: built as create_result
would for a loadgroup nodeid that ends in the group marker, here written
directly to exercise pubdir. -/
def emptyScopeRecord : TestResult :=
  ⟨"result", "pass", "t.py::f@", "f", 0, 0, 0, "", "", "",
   some "loadgroup", some "gw0", some "", some "root/f/0.pass", none⟩

/-- N successive allocations against the same bucket, in lock-grant order:
the FileLock serializes concurrent allocate calls, so any interleaving of N
callers (across any number of processes sharing the filesystem) is
equivalent to this sequence, the i-th element being the path returned to
the caller granted the lock i-th. -/
def iterAlloc (root name result : String) (scope : Option String) :
    Nat → PubFS → List String × PubFS
  | 0, fs => ([], fs)
  | Nat.succ n, fs =>
    let pr := generate_test_pubdir_path fs root name result scope
    let rest := iterAlloc root name result scope n pr.2
    (pr.1 :: rest.1, rest.2)

/-- Scenario of spec section 8.4: a pass result dispatched into the bucket
of test t.py::f under filter "fail" (spec name: fail-only), root "root". -/
def scenarioStep1 : DispatchOutcome :=
  pytest_runtest_makereport true none (some "root") "t.py::f" none none "no"
    0 0 0 "" "" "" "fail" false false fsEmpty

/-- Then a skip result dispatched into the same bucket. -/
def scenarioStep2 : DispatchOutcome :=
  pytest_runtest_makereport true none (some "root") "t.py::f"
    (some ⟨true, "Skipped", "", []⟩) none "no"
    0 0 0 "" "" "" "fail" false false scenarioStep1.fs

/-- Then a fail result dispatched into the same bucket. -/
def scenarioStep3 : DispatchOutcome :=
  pytest_runtest_makereport true none (some "root") "t.py::f"
    (some ⟨false, "AssertionError", "assert False", []⟩) none "no"
    0 0 0 "" "" "" "fail" false false scenarioStep2.fs

/-- The bucket path root/[scope/]displayName used by the allocator
(lines 70-73): scope is joined in only when truthy. -/
def bucketPath (root : String) (scope : Option String) (name : String) : String :=
  pathJoin (if truthyOptStr scope then pathJoin root (scope.getD "") else root) name

/-- Number of sequence allocations in a trace. -/
def countAllocs (tr : List SinkEvent) : Nat :=
  tr.countP (fun e => match e with | SinkEvent.alloc _ => true | _ => false)

/-- Whether the characters of p are an initial segment of the characters
of s. -/
def startsWithStr (p s : String) : Bool :=
  s.data.take p.data.length == p.data

/-! ## Helper lemmas: decimal numerals round-trip through the counter file -/

lemma digitChar_isDigit {d : Nat} (h : d < 10) :
    (Char.ofNat (48 + d)).isDigit = true := by
  interval_cases d <;> decide

lemma digitChar_not_space {d : Nat} (h : d < 10) :
    isPySpace (Char.ofNat (48 + d)) = false := by
  interval_cases d <;> decide

lemma digitVal_digitChar {d : Nat} (h : d < 10) :
    digitVal (Char.ofNat (48 + d)) = d := by
  interval_cases d <;> decide

lemma natToDigitChars_ne_nil (n : Nat) : natToDigitChars n ≠ [] := by
  unfold natToDigitChars
  split <;> simp

lemma natToDigitChars_all_digit (n : Nat) :
    (natToDigitChars n).all Char.isDigit = true := by
  induction n using Nat.strong_induction_on with
  | _ n ih =>
    unfold natToDigitChars
    split
    · rename_i h
      simp [digitChar_isDigit h]
    · rename_i h
      rw [List.all_append]
      refine Bool.and_eq_true_iff.mpr ⟨ih _ (Nat.div_lt_self (by omega) (by omega)), ?_⟩
      simp [digitChar_isDigit (Nat.mod_lt _ (by omega))]

lemma natToDigitChars_no_space (n : Nat) :
    (natToDigitChars n).all (fun c => !isPySpace c) = true := by
  induction n using Nat.strong_induction_on with
  | _ n ih =>
    unfold natToDigitChars
    split
    · rename_i h
      simp [digitChar_not_space h]
    · rename_i h
      rw [List.all_append]
      refine Bool.and_eq_true_iff.mpr ⟨ih _ (Nat.div_lt_self (by omega) (by omega)), ?_⟩
      simp [digitChar_not_space (Nat.mod_lt _ (by omega))]

lemma foldl_natToDigitChars (n : Nat) : ∀ acc : Nat,
    (natToDigitChars n).foldl (fun a c => a * 10 + digitVal c) acc
      = acc * 10 ^ (natToDigitChars n).length + n := by
  induction n using Nat.strong_induction_on with
  | _ n ih =>
    intro acc
    unfold natToDigitChars
    split
    · rename_i h
      simp [digitVal_digitChar h]
    · rename_i h
      rw [List.foldl_append, ih _ (Nat.div_lt_self (by omega) (by omega))]
      simp only [List.foldl_cons, List.foldl_nil, List.length_append,
        List.length_cons, List.length_nil]
      rw [digitVal_digitChar (Nat.mod_lt _ (by omega))]
      rw [pow_succ]
      have hdm : 10 * (n / 10) + n % 10 = n := Nat.div_add_mod n 10
      ring_nf
      omega

lemma pyInt_pyStr (n : Nat) : pyInt (pyStr n) = n := by
  have := foldl_natToDigitChars n 0
  simpa [pyInt, pyStr] using this

lemma pyIsdigit_pyStr (n : Nat) : pyIsdigit (pyStr n) = true := by
  have h1 := natToDigitChars_ne_nil n
  have h2 := natToDigitChars_all_digit n
  simp [pyIsdigit, pyStr, h2]
  exact h1

lemma dropWhile_eq_self_of_all_not {p : Char → Bool} {l : List Char}
    (h : l.all (fun c => !p c) = true) : l.dropWhile p = l := by
  cases l with
  | nil => rfl
  | cons c t =>
    simp only [List.all_cons, Bool.and_eq_true, Bool.not_eq_true'] at h
    rw [List.dropWhile_cons_of_neg (by simp [h.1])]

lemma pyStrip_pyStr (n : Nat) : pyStrip (pyStr n) = pyStr n := by
  have h := natToDigitChars_no_space n
  have hrev : (natToDigitChars n).reverse.all (fun c => !isPySpace c) = true := by
    simpa using h
  simp only [pyStrip, pyStr]
  rw [dropWhile_eq_self_of_all_not h, dropWhile_eq_self_of_all_not hrev,
    List.reverse_reverse]

lemma readCount_pyStr (n : Nat) : readCount (some (pyStr n)) = n := by
  simp [readCount, pyStrip_pyStr, pyIsdigit_pyStr, pyInt_pyStr]

lemma iterAlloc_from (root name result : String) (n : Nat) :
    ∀ (fs : PubFS) (k : Nat),
      readCount (fs.counters (pathJoin root name)) = k →
      (iterAlloc root name result none n fs).1
        = (List.range n).map
            (fun i => pathJoin (pathJoin root name) (pyStr (k + i) ++ "." ++ result))
      ∧ readCount
          ((iterAlloc root name result none n fs).2.counters (pathJoin root name))
        = k + n := by
  induction n with
  | zero => intro fs k h; simpa [iterAlloc] using h
  | succ n ih =>
    intro fs k h
    have hfs2 : readCount
        (((generate_test_pubdir_path fs root name result none).2).counters
          (pathJoin root name)) = k + 1 := by
      simp [generate_test_pubdir_path, truthyOptStr, h, readCount_pyStr]
    obtain ⟨h1, h2⟩ := ih (generate_test_pubdir_path fs root name result none).2 (k + 1) hfs2
    constructor
    · show (generate_test_pubdir_path fs root name result none).1
          :: (iterAlloc root name result none n
              (generate_test_pubdir_path fs root name result none).2).1 = _
      rw [h1, List.range_succ_eq_map, List.map_cons, List.map_map]
      congr 1
      · simp [generate_test_pubdir_path, truthyOptStr, h]
      · exact List.map_congr_left (fun i _ => by
          simp only [Function.comp_apply]
          have h3 : k + 1 + i = k + (i + 1) := by omega
          rw [h3])
    · show readCount ((iterAlloc root name result none n
          (generate_test_pubdir_path fs root name result none).2).2.counters
            (pathJoin root name)) = _
      rw [h2]; omega

/-- C1: for any N allocate calls against the same bucket, serialized by the
per-bucket lock (any interleaving of any number of processes is equivalent
to the sequence in lock-grant order), the returned leaf paths carry exactly
the indices 0, 1, ..., N-1 in lock-grant order, with no duplicate and no
gap, and the bucket counter finishes at N. -/
theorem claim_C1 (root name result : String) (N : Nat) :
    (iterAlloc root name result none N fsEmpty).1
      = (List.range N).map
          (fun i => pathJoin (pathJoin root name) (pyStr i ++ "." ++ result))
    ∧ readCount
        ((iterAlloc root name result none N fsEmpty).2.counters (pathJoin root name))
      = N := by
  obtain ⟨h1, h2⟩ := iterAlloc_from root name result N fsEmpty 0 rfl
  refine ⟨?_, by simpa using h2⟩
  rw [h1]
  exact List.map_congr_left (fun i _ => by rw [Nat.zero_add])

/-- C2 (amended): a single allocation returns the leaf path carrying index
equal to the pre-call counter value and advances the counter file of its
bucket (and no other) to that index plus one — where the pre-call counter
value treats a missing file, or content whose whitespace-stripped form is
not a non-negative decimal numeral, as 0 (the code strips the content
before the numeral test, so whitespace-padded numerals are parsed, not
zeroed). -/
theorem claim_C2_amended (fs : PubFS) (root name result : String)
    (scope : Option String) :
    (generate_test_pubdir_path fs root name result scope).1
      = pathJoin
          (pathJoin (if truthyOptStr scope then pathJoin root (scope.getD "") else root) name)
          (pyStr (readCount (fs.counters
            (pathJoin (if truthyOptStr scope then pathJoin root (scope.getD "") else root) name)))
           ++ "." ++ result)
    ∧ (generate_test_pubdir_path fs root name result scope).2.counters
        (pathJoin (if truthyOptStr scope then pathJoin root (scope.getD "") else root) name)
      = some (pyStr (readCount (fs.counters
          (pathJoin (if truthyOptStr scope then pathJoin root (scope.getD "") else root) name)) + 1))
    ∧ (∀ p, p ≠ pathJoin (if truthyOptStr scope then pathJoin root (scope.getD "") else root) name →
        (generate_test_pubdir_path fs root name result scope).2.counters p = fs.counters p)
    ∧ (∀ c : String, readCount (some c) = claimCounterRead (some (pyStrip c))) := by
  refine ⟨rfl, ?_, ?_, fun c => rfl⟩
  · simp [generate_test_pubdir_path]
  · intro p hp
    simp [generate_test_pubdir_path, hp]

/-- Witness for claim_C2_amended at a concrete input, discharging the
inner hypothesis that a path differs from the bucket. -/
theorem claim_C2_amended_witness :
    (generate_test_pubdir_path fsPadded "root" "t" "pass" none).2.counters "other"
      = fsPadded.counters "other" :=
  (claim_C2_amended fsPadded "root" "t" "pass" none).2.2.1 "other" (by decide)

lemma pyStr_0 : pyStr 0 = "0" := by unfold pyStr natToDigitChars; decide

lemma pyStr_1 : pyStr 1 = "1" := by unfold pyStr natToDigitChars; decide

lemma pyStr_2 : pyStr 2 = "2" := by unfold pyStr natToDigitChars; decide

lemma pyStr_3 : pyStr 3 = "3" := by unfold pyStr natToDigitChars; decide

lemma pyStr_7 : pyStr 7 = "7" := by unfold pyStr natToDigitChars; decide

lemma pyStr_8 : pyStr 8 = "8" := by unfold pyStr natToDigitChars; decide

/-- C2 counterexample: with counter-file content " 7" (not itself a
non-negative decimal numeral, so the claim as stated treats it as 0), the
code strips first and parses 7: the returned leaf path carries index 7,
not the claimed 0, and the counter is advanced to 8, not 1. -/
theorem claim_C2_cex :
    claimCounterRead (some " 7") = 0
    ∧ readCount (some " 7") = 7
    ∧ (generate_test_pubdir_path fsPadded "root" "t" "pass" none).1 = "root/t/7.pass"
    ∧ (generate_test_pubdir_path fsPadded "root" "t" "pass" none).1
        ≠ pathJoin (pathJoin "root" "t")
            (pyStr (claimCounterRead (fsPadded.counters (pathJoin "root" "t"))) ++ "." ++ "pass")
    ∧ (generate_test_pubdir_path fsPadded "root" "t" "pass" none).2.counters "root/t"
        = some "8" := by
  have hrc : readCount (fsPadded.counters (pathJoin "root" "t")) = 7 := by decide
  have hcc : claimCounterRead (fsPadded.counters (pathJoin "root" "t")) = 0 := by decide
  refine ⟨rfl, by decide, ?_, ?_, ?_⟩
  · simp only [generate_test_pubdir_path, truthyOptStr, Bool.false_eq_true, if_false,
      hrc, pyStr_7]
    decide
  · simp only [generate_test_pubdir_path, truthyOptStr, Bool.false_eq_true, if_false,
      hrc, hcc, pyStr_7, pyStr_0]
    decide
  · simp only [generate_test_pubdir_path, truthyOptStr, Bool.false_eq_true, if_false, hrc]
    norm_num [pyStr_8]
    decide

/-- C3: for every record built by create_result, the excinfo field is
present if and only if the classification is not "pass" (the
classification always being one of "pass", "skip", "fail"), and when the
error descriptor is present the excinfo field carries exactly its type
label, stringified message and formatted stack frames. -/
theorem claim_C3 (nodeid : String) (excinfo : Option ExcDescriptor)
    (envWorker : Option String) (dist : String) (startT stopT durT : ℚ)
    (capstdout capstderr caplog pubdir_filter : String)
    (pubdir_path : Option String) (fs : PubFS) :
    ((create_result nodeid excinfo envWorker dist startT stopT durT capstdout
        capstderr caplog pubdir_filter pubdir_path fs).1.excinfo.isSome = true
      ↔ (create_result nodeid excinfo envWorker dist startT stopT durT capstdout
          capstderr caplog pubdir_filter pubdir_path fs).1.result ≠ "pass")
    ∧ ((create_result nodeid excinfo envWorker dist startT stopT durT capstdout
          capstderr caplog pubdir_filter pubdir_path fs).1.result = "pass"
        ∨ (create_result nodeid excinfo envWorker dist startT stopT durT capstdout
            capstderr caplog pubdir_filter pubdir_path fs).1.result = "skip"
        ∨ (create_result nodeid excinfo envWorker dist startT stopT durT capstdout
            capstderr caplog pubdir_filter pubdir_path fs).1.result = "fail")
    ∧ (∀ d : ExcDescriptor, excinfo = some d →
        (create_result nodeid excinfo envWorker dist startT stopT durT capstdout
          capstderr caplog pubdir_filter pubdir_path fs).1.excinfo
          = some ⟨d.typeName, d.valueStr, d.formattedTb⟩) := by
  cases excinfo with
  | none =>
    refine ⟨?_, ?_, ?_⟩
    · simp [create_result]
    · left; simp [create_result]
    · intro d hd; cases hd
  | some d =>
    by_cases hs : d.isSkipExc = true
    · refine ⟨?_, ?_, ?_⟩
      · simp [create_result, hs]
      · right; left; simp [create_result, hs]
      · intro d2 hd2
        cases hd2
        simp [create_result, hs]
    · refine ⟨?_, ?_, ?_⟩
      · simp [create_result, hs]
      · right; right; simp [create_result, hs]
      · intro d2 hd2
        cases hd2
        simp [create_result, hs]

/-- Witness for claim_C3: at a concrete failing test, the built record
carries exactly the descriptor data in its excinfo field. -/
theorem claim_C3_witness :
    (create_result "t.py::f" (some ⟨false, "AssertionError", "assert False", ["tb0"]⟩)
      none "no" 0 0 0 "" "" "" "bad" none fsEmpty).1.excinfo
      = some ⟨"AssertionError", "assert False", ["tb0"]⟩ :=
  (claim_C3 "t.py::f" (some ⟨false, "AssertionError", "assert False", ["tb0"]⟩)
    none "no" 0 0 0 "" "" "" "bad" none fsEmpty).2.2
    ⟨false, "AssertionError", "assert False", ["tb0"]⟩ rfl

lemma pathJoin_ne_empty (a b : String) : pathJoin a b ≠ "" := by
  intro h
  have h2 : (a ++ "/" ++ b).data = ("" : String).data := congrArg String.data h
  rw [String.data_append, String.data_append] at h2
  have h3 : ("/" : String).data = ['/'] := rfl
  have h4 : ("" : String).data = [] := rfl
  rw [h3, h4] at h2
  simp at h2

lemma truthy_some_pathJoin (a b : String) :
    truthyOptStr (some (pathJoin a b)) = true := by
  simp [truthyOptStr]
  exact pathJoin_ne_empty a b

lemma generate_counters_self (fs : PubFS) (root name result : String)
    (scope : Option String) :
    (generate_test_pubdir_path fs root name result scope).2.counters
        (bucketPath root scope name)
      = some (pyStr (readCount (fs.counters (bucketPath root scope name)) + 1)) := by
  simp [generate_test_pubdir_path, bucketPath]

lemma generate_leafDirs (fs : PubFS) (root name result : String)
    (scope : Option String) :
    (generate_test_pubdir_path fs root name result scope).2.leafDirs
      = fs.leafDirs := rfl

lemma generate_path (fs : PubFS) (root name result : String)
    (scope : Option String) :
    (generate_test_pubdir_path fs root name result scope).1
      = pathJoin (bucketPath root scope name)
          (pyStr (readCount (fs.counters (bucketPath root scope name)))
            ++ "." ++ result) := rfl

lemma pubdir_counters (r : TestResult) (fs : PubFS) :
    (pubdir r fs).1.counters = fs.counters := by
  unfold pubdir
  split <;> rfl

lemma pubdir_leafDirs_truthy (r : TestResult) (fs : PubFS)
    (h : truthyOptStr r.pubdir_path = true) :
    (pubdir r fs).1.leafDirs = (r.pubdir_path.getD "") :: fs.leafDirs := by
  unfold pubdir
  rw [h]
  rfl

lemma pubdir_leafDirs_falsy (r : TestResult) (fs : PubFS)
    (h : truthyOptStr r.pubdir_path = false) :
    (pubdir r fs).1.leafDirs = fs.leafDirs := by
  unfold pubdir
  rw [h]
  rfl

lemma countAllocs_leaf_opt (c : Bool) (x : String) :
    countAllocs (if c = true then [SinkEvent.leafWrite x] else []) = 0 := by
  cases c <;> rfl

lemma countAllocs_post_opt (c : Bool) (x : String) :
    countAllocs (if c = true then [SinkEvent.post x] else []) = 0 := by
  cases c <;> rfl

lemma countAllocs_append (a b : List SinkEvent) :
    countAllocs (a ++ b) = countAllocs a + countAllocs b := by
  simp [countAllocs, List.countP_append]

lemma create_result_truthy_pubdir (nodeid : String) (excinfo : Option ExcDescriptor)
    (envWorker : Option String) (dist : String) (startT stopT durT : ℚ)
    (so se lg filt : String) (pp : Option String) (fs : PubFS)
    (hpp : truthyOptStr pp = true) :
    (create_result nodeid excinfo envWorker dist startT stopT durT so se lg
        filt pp fs).2
      = (generate_test_pubdir_path fs (pp.getD "")
          (create_result nodeid excinfo envWorker dist startT stopT durT so se lg
            filt pp fs).1.name
          (create_result nodeid excinfo envWorker dist startT stopT durT so se lg
            filt pp fs).1.result
          (create_result nodeid excinfo envWorker dist startT stopT durT so se lg
            filt pp fs).1.xdist_scope).2
    ∧ (create_result nodeid excinfo envWorker dist startT stopT durT so se lg
        filt pp fs).1.pubdir_path
      = (if should_pubdir_test filt
            (create_result nodeid excinfo envWorker dist startT stopT durT so se lg
              filt pp fs).1.result = true then
          some (generate_test_pubdir_path fs (pp.getD "")
            (create_result nodeid excinfo envWorker dist startT stopT durT so se lg
              filt pp fs).1.name
            (create_result nodeid excinfo envWorker dist startT stopT durT so se lg
              filt pp fs).1.result
            (create_result nodeid excinfo envWorker dist startT stopT durT so se lg
              filt pp fs).1.xdist_scope).1
        else none) := by
  constructor
  · simp only [create_result, hpp, if_true]
  · simp only [create_result, hpp, if_true]

lemma hook_truthy_char (publishUrl pubdirPath : Option String) (nodeid : String)
    (excinfo : Option ExcDescriptor) (envWorker : Option String) (dist : String)
    (startT stopT durT : ℚ) (so se lg filt : String) (fs : PubFS)
    (hp : truthyOptStr pubdirPath = true) :
    (pytest_runtest_makereport true publishUrl pubdirPath nodeid excinfo envWorker
        dist startT stopT durT so se lg filt false false fs).record
      = some (create_result nodeid excinfo envWorker dist startT stopT durT so se lg
          filt pubdirPath fs).1
    ∧ (pytest_runtest_makereport true publishUrl pubdirPath nodeid excinfo envWorker
        dist startT stopT durT so se lg filt false false fs).fs.counters
      = (fun p => if p = bucketPath (pubdirPath.getD "")
            (create_result nodeid excinfo envWorker dist startT stopT durT so se lg
              filt pubdirPath fs).1.xdist_scope
            (create_result nodeid excinfo envWorker dist startT stopT durT so se lg
              filt pubdirPath fs).1.name then
          some (pyStr (readCount (fs.counters (bucketPath (pubdirPath.getD "")
            (create_result nodeid excinfo envWorker dist startT stopT durT so se lg
              filt pubdirPath fs).1.xdist_scope
            (create_result nodeid excinfo envWorker dist startT stopT durT so se lg
              filt pubdirPath fs).1.name)) + 1))
        else fs.counters p)
    ∧ (pytest_runtest_makereport true publishUrl pubdirPath nodeid excinfo envWorker
        dist startT stopT durT so se lg filt false false fs).fs.leafDirs
      = (if should_pubdir_test filt
            (create_result nodeid excinfo envWorker dist startT stopT durT so se lg
              filt pubdirPath fs).1.result = true then
          pathJoin (bucketPath (pubdirPath.getD "")
              (create_result nodeid excinfo envWorker dist startT stopT durT so se lg
                filt pubdirPath fs).1.xdist_scope
              (create_result nodeid excinfo envWorker dist startT stopT durT so se lg
                filt pubdirPath fs).1.name)
            (pyStr (readCount (fs.counters (bucketPath (pubdirPath.getD "")
               (create_result nodeid excinfo envWorker dist startT stopT durT so se lg
                 filt pubdirPath fs).1.xdist_scope
               (create_result nodeid excinfo envWorker dist startT stopT durT so se lg
                 filt pubdirPath fs).1.name)))
              ++ "." ++ (create_result nodeid excinfo envWorker dist startT stopT durT
                  so se lg filt pubdirPath fs).1.result)
            :: fs.leafDirs
        else fs.leafDirs)
    ∧ countAllocs (pytest_runtest_makereport true publishUrl pubdirPath nodeid excinfo
        envWorker dist startT stopT durT so se lg filt false false fs).events = 1 := by
  obtain ⟨hfs, hpath⟩ := create_result_truthy_pubdir nodeid excinfo envWorker dist
    startT stopT durT so se lg filt pubdirPath fs hp
  refine ⟨?_, ?_, ?_, ?_⟩
  · simp only [pytest_runtest_makereport, hp, Bool.not_true, Bool.and_false,
      Bool.false_and, if_true, Bool.false_eq_true, if_false]
  · simp only [pytest_runtest_makereport, hp, Bool.not_true, Bool.and_false,
      Bool.false_and, if_true, Bool.false_eq_true, if_false]
    rw [pubdir_counters, hfs]
    rfl
  · simp only [pytest_runtest_makereport, hp, Bool.not_true, Bool.and_false,
      Bool.false_and, if_true, Bool.false_eq_true, if_false]
    by_cases hsp : should_pubdir_test filt
        (create_result nodeid excinfo envWorker dist startT stopT durT so se lg
          filt pubdirPath fs).1.result = true
    · have ht : truthyOptStr (create_result nodeid excinfo envWorker dist startT stopT
          durT so se lg filt pubdirPath fs).1.pubdir_path = true := by
        rw [hpath, if_pos hsp, generate_path]
        exact truthy_some_pathJoin _ _
      rw [pubdir_leafDirs_truthy _ _ ht, hfs, generate_leafDirs, if_pos hsp,
        hpath, if_pos hsp, generate_path]
      simp [generate_leafDirs]
    · have ht : truthyOptStr (create_result nodeid excinfo envWorker dist startT stopT
          durT so se lg filt pubdirPath fs).1.pubdir_path = false := by
        rw [hpath, if_neg hsp]
        rfl
      rw [pubdir_leafDirs_falsy _ _ ht, hfs, generate_leafDirs, if_neg hsp]
  · simp only [pytest_runtest_makereport, hp, Bool.not_true, Bool.and_false,
      Bool.false_and, if_true, Bool.false_eq_true, if_false]
    rw [countAllocs_append, countAllocs_append, countAllocs_leaf_opt, countAllocs_post_opt]
    rfl

/-- C4: whenever a directory root is configured (truthy pubdir path), a
dispatched result performs exactly one sequence allocation, advancing the
counter file of its bucket by one, whatever the filter and the
classification; the leaf count grows by one exactly when the filter admits
the classification; and dispatching one pass, one skip and one fail into
one bucket under the fail-only filter leaves the counter file at "3" with
exactly the single leaf root/f/2.fail. -/
theorem claim_C4 :
    (∀ (publishUrl pubdirPath : Option String) (nodeid : String)
        (excinfo : Option ExcDescriptor) (envWorker : Option String) (dist : String)
        (startT stopT durT : ℚ) (so se lg filt : String) (fs : PubFS),
        truthyOptStr pubdirPath = true →
        ∀ r : TestResult,
          (pytest_runtest_makereport true publishUrl pubdirPath nodeid excinfo envWorker
              dist startT stopT durT so se lg filt false false fs).record = some r →
          countAllocs (pytest_runtest_makereport true publishUrl pubdirPath nodeid excinfo
              envWorker dist startT stopT durT so se lg filt false false fs).events = 1
          ∧ readCount ((pytest_runtest_makereport true publishUrl pubdirPath nodeid excinfo
                envWorker dist startT stopT durT so se lg filt false false fs).fs.counters
                (bucketPath (pubdirPath.getD "") r.xdist_scope r.name))
            = readCount (fs.counters (bucketPath (pubdirPath.getD "") r.xdist_scope r.name)) + 1
          ∧ (pytest_runtest_makereport true publishUrl pubdirPath nodeid excinfo envWorker
                dist startT stopT durT so se lg filt false false fs).fs.leafDirs.length
            = fs.leafDirs.length
              + (if should_pubdir_test filt r.result = true then 1 else 0))
    ∧ scenarioStep3.fs.counters "root/f" = some "3"
    ∧ scenarioStep3.fs.leafDirs = ["root/f/2.fail"] := by
  refine ⟨?_, ?_⟩
  · intro publishUrl pubdirPath nodeid excinfo envWorker dist startT stopT durT
      so se lg filt fs hp r hr
    obtain ⟨hrec, hcnt, hleaf, hev⟩ := hook_truthy_char publishUrl pubdirPath nodeid
      excinfo envWorker dist startT stopT durT so se lg filt fs hp
    rw [hrec] at hr
    injection hr with hr
    subst hr
    refine ⟨hev, ?_, ?_⟩
    · rw [hcnt]
      simp [readCount_pyStr]
    · rw [hleaf]
      by_cases hsp : should_pubdir_test filt
          (create_result nodeid excinfo envWorker dist startT stopT durT so se lg
            filt pubdirPath fs).1.result = true
      · simp [hsp]
      · simp [hsp]
  · have hp : truthyOptStr (some "root") = true := by decide
    have c1 := hook_truthy_char none (some "root") "t.py::f" none none "no"
      0 0 0 "" "" "" "fail" fsEmpty hp
    have c2 := hook_truthy_char none (some "root") "t.py::f"
      (some ⟨true, "Skipped", "", []⟩) none "no" 0 0 0 "" "" "" "fail" scenarioStep1.fs hp
    have c3 := hook_truthy_char none (some "root") "t.py::f"
      (some ⟨false, "AssertionError", "assert False", []⟩) none "no"
      0 0 0 "" "" "" "fail" scenarioStep2.fs hp
    simp only [Option.getD_some] at c1 c2 c3
    have hb1 : bucketPath "root"
        (create_result "t.py::f" none none "no" 0 0 0 "" "" "" "fail" (some "root") fsEmpty).1.xdist_scope
        (create_result "t.py::f" none none "no" 0 0 0 "" "" "" "fail" (some "root") fsEmpty).1.name
        = "root/f" := by decide
    have hb2 : bucketPath "root"
        (create_result "t.py::f" (some ⟨true, "Skipped", "", []⟩) none "no" 0 0 0 "" "" "" "fail" (some "root") scenarioStep1.fs).1.xdist_scope
        (create_result "t.py::f" (some ⟨true, "Skipped", "", []⟩) none "no" 0 0 0 "" "" "" "fail" (some "root") scenarioStep1.fs).1.name
        = "root/f" := by decide
    have hb3 : bucketPath "root"
        (create_result "t.py::f" (some ⟨false, "AssertionError", "assert False", []⟩) none "no" 0 0 0 "" "" "" "fail" (some "root") scenarioStep2.fs).1.xdist_scope
        (create_result "t.py::f" (some ⟨false, "AssertionError", "assert False", []⟩) none "no" 0 0 0 "" "" "" "fail" (some "root") scenarioStep2.fs).1.name
        = "root/f" := by decide
    have hs1 : should_pubdir_test "fail"
        (create_result "t.py::f" none none "no" 0 0 0 "" "" "" "fail" (some "root") fsEmpty).1.result = false := by decide
    have hs2 : should_pubdir_test "fail"
        (create_result "t.py::f" (some ⟨true, "Skipped", "", []⟩) none "no" 0 0 0 "" "" "" "fail" (some "root") scenarioStep1.fs).1.result = false := by decide
    have hs3 : should_pubdir_test "fail"
        (create_result "t.py::f" (some ⟨false, "AssertionError", "assert False", []⟩) none "no" 0 0 0 "" "" "" "fail" (some "root") scenarioStep2.fs).1.result = true := by decide
    have hr3 : (create_result "t.py::f" (some ⟨false, "AssertionError", "assert False", []⟩) none "no" 0 0 0 "" "" "" "fail" (some "root") scenarioStep2.fs).1.result = "fail" := by decide
    rw [hb1] at c1
    rw [hb2, hs2] at c2
    rw [hb3, hs3, hr3] at c3
    rw [hs1] at c1
    have hrc0 : readCount (fsEmpty.counters "root/f") = 0 := rfl
    rw [hrc0] at c1
    norm_num at c1
    have k1 : scenarioStep1.fs.counters "root/f" = some (pyStr 1) := by
      rw [show scenarioStep1.fs.counters = _ from c1.2.1]
      simp
    have l1 : scenarioStep1.fs.leafDirs = [] := by
      rw [show scenarioStep1.fs.leafDirs = _ from c1.2.2.1]
      rfl
    rw [k1, readCount_pyStr] at c2
    norm_num at c2
    have k2 : scenarioStep2.fs.counters "root/f" = some (pyStr 2) := by
      rw [show scenarioStep2.fs.counters = _ from c2.2.1]
      simp
    have l2 : scenarioStep2.fs.leafDirs = [] := by
      rw [show scenarioStep2.fs.leafDirs = _ from c2.2.2.1, l1]
    rw [k2, readCount_pyStr] at c3
    norm_num at c3
    constructor
    · rw [show scenarioStep3.fs.counters = _ from c3.2.1]
      simp [pyStr_3]
    · rw [show scenarioStep3.fs.leafDirs = _ from c3.2.2.1, l2, pyStr_2]
      decide

/-- Witness for claim_C4 at a concrete dispatch: one pass result into an
empty bucket under the all filter advances the counter to 1 and adds one
leaf. -/
theorem claim_C4_witness :
    countAllocs (pytest_runtest_makereport true none (some "r") "a::b" none none "no"
        0 0 0 "" "" "" "all" false false fsEmpty).events = 1
    ∧ readCount ((pytest_runtest_makereport true none (some "r") "a::b" none none "no"
        0 0 0 "" "" "" "all" false false fsEmpty).fs.counters
        (bucketPath "r"
          (create_result "a::b" none none "no" 0 0 0 "" "" "" "all" (some "r") fsEmpty).1.xdist_scope
          (create_result "a::b" none none "no" 0 0 0 "" "" "" "all" (some "r") fsEmpty).1.name))
      = readCount (fsEmpty.counters (bucketPath "r"
          (create_result "a::b" none none "no" 0 0 0 "" "" "" "all" (some "r") fsEmpty).1.xdist_scope
          (create_result "a::b" none none "no" 0 0 0 "" "" "" "all" (some "r") fsEmpty).1.name)) + 1 := by
  have h := (claim_C4.1 none (some "r") "a::b" none none "no" 0 0 0 "" "" "" "all"
    fsEmpty (by decide)
    (create_result "a::b" none none "no" 0 0 0 "" "" "" "all" (some "r") fsEmpty).1
    (hook_truthy_char none (some "r") "a::b" none none "no" 0 0 0 "" "" "" "all"
      fsEmpty (by decide)).1)
  exact ⟨h.1, by simpa using h.2.1⟩

/-- C5: code_bug evidence.  The claim says the displayName is the last
"::"-delimited segment of testId, with the trailing "@"-delimited group tag
stripped under loadgroup and otherwise unmodified.  For a loadgroup run of
a test whose identifier carries no "@" tag, name.rfind("@") returns -1 and
the slice name[:-1] drops the final character: the record for
test.py::test_a gets displayName "test_" instead of the last segment
"test_a". -/
theorem claim_C5_eval :
    (create_result "test.py::test_a" none (some "gw0") "loadgroup" 0 0 0 "" "" ""
        "bad" none fsEmpty).1.name = "test_"
    ∧ lastSegment "test.py::test_a" = "test_a"
    ∧ "test_" ≠ "test_a" := by
  refine ⟨by decide, by decide, by decide⟩

/-- C6: under a distribution mode other than loadgroup (in particular mode
"no", the un-distributed mode the spec calls none) the record carries no
scope, as it does when no worker is active at all; and under loadgroup any
two test identifiers carrying the same embedded group tag (the part after
the last "@") resolve to the identical scope. -/
theorem claim_C6 :
    (∀ (nodeid : String) (excinfo : Option ExcDescriptor) (envWorker : Option String)
        (dist : String) (startT stopT durT : ℚ) (so se lg filt : String)
        (pp : Option String) (fs : PubFS),
        (truthyOptStr envWorker = false ∨ dist ≠ "loadgroup") →
        (create_result nodeid excinfo envWorker dist startT stopT durT so se lg
          filt pp fs).1.xdist_scope = none)
    ∧ (∀ (n1 n2 t : String)
        (excinfo1 excinfo2 : Option ExcDescriptor) (envWorker1 envWorker2 : Option String)
        (startT1 stopT1 durT1 startT2 stopT2 durT2 : ℚ)
        (so1 se1 lg1 filt1 so2 se2 lg2 filt2 : String)
        (pp1 pp2 : Option String) (fs1 fs2 : PubFS),
        n1.data.contains '@' = true → afterLastAt n1 = t →
        n2.data.contains '@' = true → afterLastAt n2 = t →
        truthyOptStr envWorker1 = true → truthyOptStr envWorker2 = true →
        (create_result n1 excinfo1 envWorker1 "loadgroup" startT1 stopT1 durT1
          so1 se1 lg1 filt1 pp1 fs1).1.xdist_scope
          = (create_result n2 excinfo2 envWorker2 "loadgroup" startT2 stopT2 durT2
              so2 se2 lg2 filt2 pp2 fs2).1.xdist_scope) := by
  constructor
  · intro nodeid excinfo envWorker dist startT stopT durT so se lg filt pp fs h
    rcases h with h | h
    · simp [create_result, h]
    · have hb : (dist == "loadgroup") = false := by
        simpa using h
      simp [create_result, hb]
  · intro n1 n2 t excinfo1 excinfo2 envWorker1 envWorker2 startT1 stopT1 durT1
      startT2 stopT2 durT2 so1 se1 lg1 filt1 so2 se2 lg2 filt2 pp1 pp2 fs1 fs2
      hc1 ht1 hc2 ht2 hw1 hw2
    have hm1 : '@' ∈ n1.data := by simpa using hc1
    have hm2 : '@' ∈ n2.data := by simpa using hc2
    simp [create_result, hw1, hw2, split_scope, hc1, hc2, ht1, ht2, hm1, hm2]

/-- Witness for claim_C6: concrete identifiers a::t1@g and b::t2@g share
the tag g and resolve to the same scope; a record built under mode "no"
carries no scope. -/
theorem claim_C6_witness :
    (create_result "a::t1@g" none (some "gw0") "loadgroup" 0 0 0 "" "" "" "bad"
        none fsEmpty).1.xdist_scope
      = (create_result "b::t2@g" none (some "gw1") "loadgroup" 0 0 0 "" "" "" "bad"
          none fsEmpty).1.xdist_scope
    ∧ (create_result "a::t1" none (some "gw0") "no" 0 0 0 "" "" "" "bad"
        none fsEmpty).1.xdist_scope = none :=
  ⟨claim_C6.2 "a::t1@g" "b::t2@g" "g" none none (some "gw0") (some "gw1")
      0 0 0 0 0 0 "" "" "" "bad" "" "" "" "bad" none none fsEmpty fsEmpty
      (by decide) (by decide) (by decide) (by decide) (by decide) (by decide),
   claim_C6.1 "a::t1" none (some "gw0") "no" 0 0 0 "" "" "" "bad" none fsEmpty
      (Or.inr (by decide))⟩

/-- C7 (amended): for every title of length at most 61 the banner line
equals the spec formula ("=" repeated ceil((66-len-2)/2), space, title,
space, "=" repeated floor((66-len-2)/2)) and has total width 66; for a
title of length 62 or more, _header returns the bare title instead of the
formula (the width <= 2 early return at line 172-173). -/
theorem claim_C7_amended (title : String) :
    (title.length ≤ 61 →
      _header title = bannerFormula title ∧ (_header title).length = 66)
    ∧ (62 ≤ title.length → _header title = title) := by
  constructor
  · intro h
    have hw : ¬((66 - (title.length : Int) - 2) ≤ 2) := by omega
    constructor
    · simp only [_header, bannerFormula]
      rw [if_neg hw]
    · simp only [_header]
      rw [if_neg hw]
      have hs : ∀ (n : Nat), (strRepl '=' n).length = n := fun n => by
        simp [strRepl, String.length]
      have h1 : (" " : String).length = 1 := rfl
      simp only [String.length_append, hs, h1]
      omega
  · intro h
    have hw : (66 - (title.length : Int) - 2) ≤ 2 := by omega
    simp only [_header]
    rw [if_pos hw]

/-- Witness for claim_C7_amended: the concrete title "stdout" fits and its
banner is the formula with total width 66. -/
theorem claim_C7_witness :
    _header "stdout" = bannerFormula "stdout" ∧ (_header "stdout").length = 66 :=
  (claim_C7_amended "stdout").1 (by decide)

/-- C7 counterexample: for a 62-character title the code returns the bare
title (width <= 2 branch), which differs from the banner formula the claim
asserts for every title. -/
theorem claim_C7_cex :
    _header longTitle = longTitle
    ∧ _header longTitle ≠ bannerFormula longTitle
    ∧ (bannerFormula longTitle).length = 66
    ∧ longTitle.length = 62 := by
  refine ⟨by decide, by decide, by decide, by decide⟩

lemma pyRstrip_append (p s : String)
    (hns : p.data.all (fun c => !isPySpace c) = true) :
    pyRstrip (p ++ s) = p ++ pyRstrip s := by
  apply String.ext
  show ((p ++ s).data.reverse.dropWhile isPySpace).reverse = (p ++ pyRstrip s).data
  rw [String.data_append, List.reverse_append, List.dropWhile_append]
  by_cases hc : (s.data.reverse.dropWhile isPySpace).isEmpty = true
  · rw [if_pos hc]
    have hnil : s.data.reverse.dropWhile isPySpace = [] := by simpa using hc
    rw [dropWhile_eq_self_of_all_not (by simpa using hns), List.reverse_reverse]
    show p.data = (p ++ pyRstrip s).data
    rw [String.data_append]
    show p.data = p.data ++ (s.data.reverse.dropWhile isPySpace).reverse
    rw [hnil]
    simp
  · rw [if_neg hc]
    rw [List.reverse_append, List.reverse_reverse]
    rfl

lemma startsWithStr_append (p t : String) : startsWithStr p (p ++ t) = true := by
  simp [startsWithStr, String.data_append, List.take_left]

lemma startsWithStr_ne_long (q p t : String)
    (hle : p.data.length ≤ q.data.length)
    (hne : q.data.take p.data.length ≠ p.data) :
    startsWithStr q (p ++ t) = false := by
  simp only [startsWithStr, String.data_append]
  rw [beq_eq_false_iff_ne]
  intro heq
  have h2 := congrArg (List.take p.data.length) heq
  rw [List.take_take, min_eq_left hle, List.take_left] at h2
  exact hne h2.symm

lemma startsWithStr_ne_short (q p t : String)
    (hle : q.data.length ≤ p.data.length)
    (hne : p.data.take q.data.length ≠ q.data) :
    startsWithStr q (p ++ t) = false := by
  simp only [startsWithStr, String.data_append]
  rw [beq_eq_false_iff_ne, List.take_append_of_le_length hle]
  exact hne

lemma sw_pyRstrip_self (p t : String)
    (hns : p.data.all (fun c => !isPySpace c) = true) :
    startsWithStr p (pyRstrip (p ++ t)) = true := by
  rw [pyRstrip_append p t hns]
  exact startsWithStr_append p (pyRstrip t)

lemma not_sw_pyRstrip (q p t : String)
    (hns : p.data.all (fun c => !isPySpace c) = true)
    (h : (p.data.length ≤ q.data.length ∧ q.data.take p.data.length ≠ p.data)
      ∨ (q.data.length ≤ p.data.length ∧ p.data.take q.data.length ≠ q.data)) :
    startsWithStr q (pyRstrip (p ++ t)) = false := by
  rw [pyRstrip_append p t hns]
  rcases h with ⟨hle, hne⟩ | ⟨hle, hne⟩
  · exact startsWithStr_ne_long q p (pyRstrip t) hle hne
  · exact startsWithStr_ne_short q p (pyRstrip t) hle hne

/-- C8 (amended): for every record that pubdir materializes, the general
section of brief.txt always contains the testId, classification and
duration lines; it contains an xdist-scope line exactly when the scope is
present and non-empty (truthy), an xdist-node line exactly when the worker
id is truthy, and an xdist-dist line exactly when the distribution mode is
truthy and differs from "no" (the mode the spec calls none); the exception
section appears exactly when excinfo is present, and the stdout, stderr
and log sections exactly when the corresponding capture is non-empty. -/
theorem claim_C8 (r : TestResult) (fs : PubFS)
    (h : truthyOptStr r.pubdir_path = true) :
    ∃ b : Brief, (pubdir r fs).2 = some b
      ∧ pyRstrip ("test: " ++ r.nodeid) ∈ b.general
      ∧ pyRstrip ("result: " ++ r.result) ∈ b.general
      ∧ pyRstrip ("duration: " ++ floatRepr r.duration ++ "s") ∈ b.general
      ∧ b.general.any (startsWithStr "xdist-scope:") = truthyOptStr r.xdist_scope
      ∧ b.general.any (startsWithStr "xdist-node:") = truthyOptStr r.xdist_worker
      ∧ b.general.any (startsWithStr "xdist-dist:")
          = (truthyOptStr r.xdist_dist && !(r.xdist_dist.getD "" == "no"))
      ∧ b.exceptionSec.isSome = r.excinfo.isSome
      ∧ b.stdoutSec.isSome = !(r.stdout == "")
      ∧ b.stderrSec.isSome = !(r.stderr == "")
      ∧ b.logSec.isSome = !(r.log == "") := by
  have e_test : ("test: " : String) ++ r.nodeid = "test:" ++ (" " ++ r.nodeid) :=
    (congrArg (fun z => z ++ r.nodeid)
      (by decide : ("test: " : String) = "test:" ++ " ")).trans
      (String.append_assoc "test:" " " r.nodeid)
  have e_res : ("result: " : String) ++ r.result = "result:" ++ (" " ++ r.result) :=
    (congrArg (fun z => z ++ r.result)
      (by decide : ("result: " : String) = "result:" ++ " ")).trans
      (String.append_assoc "result:" " " r.result)
  have e_dur0 : ("duration: " : String) ++ floatRepr r.duration
      = "duration:" ++ (" " ++ floatRepr r.duration) :=
    (congrArg (fun z => z ++ floatRepr r.duration)
      (by decide : ("duration: " : String) = "duration:" ++ " ")).trans
      (String.append_assoc "duration:" " " (floatRepr r.duration))
  have e_dur : ("duration: " : String) ++ floatRepr r.duration ++ "s"
      = "duration:" ++ ((" " ++ floatRepr r.duration) ++ "s") :=
    (congrArg (fun z => z ++ "s") e_dur0).trans
      (String.append_assoc "duration:" (" " ++ floatRepr r.duration) "s")
  have e_scope : ("xdist-scope: " : String) ++ r.xdist_scope.getD ""
      = "xdist-scope:" ++ (" " ++ r.xdist_scope.getD "") :=
    (congrArg (fun z => z ++ r.xdist_scope.getD "")
      (by decide : ("xdist-scope: " : String) = "xdist-scope:" ++ " ")).trans
      (String.append_assoc "xdist-scope:" " " (r.xdist_scope.getD ""))
  have e_node : ("xdist-node: " : String) ++ r.xdist_worker.getD ""
      = "xdist-node:" ++ (" " ++ r.xdist_worker.getD "") :=
    (congrArg (fun z => z ++ r.xdist_worker.getD "")
      (by decide : ("xdist-node: " : String) = "xdist-node:" ++ " ")).trans
      (String.append_assoc "xdist-node:" " " (r.xdist_worker.getD ""))
  have e_dist : ("xdist-dist: " : String) ++ r.xdist_dist.getD ""
      = "xdist-dist:" ++ (" " ++ r.xdist_dist.getD "") :=
    (congrArg (fun z => z ++ r.xdist_dist.getD "")
      (by decide : ("xdist-dist: " : String) = "xdist-dist:" ++ " ")).trans
      (String.append_assoc "xdist-dist:" " " (r.xdist_dist.getD ""))
  have aS0 : startsWithStr "xdist-scope:" (pyRstrip (_header "general test info")) = false := by
    decide
  have aS1 : startsWithStr "xdist-scope:" (pyRstrip ("test: " ++ r.nodeid)) = false := by
    rw [e_test]; exact not_sw_pyRstrip _ _ _ (by decide) (Or.inl (by decide))
  have aS2 : startsWithStr "xdist-scope:" (pyRstrip ("result: " ++ r.result)) = false := by
    rw [e_res]; exact not_sw_pyRstrip _ _ _ (by decide) (Or.inl (by decide))
  have aS3 : startsWithStr "xdist-scope:"
      (pyRstrip ("duration: " ++ floatRepr r.duration ++ "s")) = false := by
    rw [e_dur]; exact not_sw_pyRstrip _ _ _ (by decide) (Or.inl (by decide))
  have aS4 : startsWithStr "xdist-scope:"
      (pyRstrip ("xdist-node: " ++ r.xdist_worker.getD "")) = false := by
    rw [e_node]; exact not_sw_pyRstrip _ _ _ (by decide) (Or.inl (by decide))
  have aS5 : startsWithStr "xdist-scope:"
      (pyRstrip ("xdist-dist: " ++ r.xdist_dist.getD "")) = false := by
    rw [e_dist]; exact not_sw_pyRstrip _ _ _ (by decide) (Or.inl (by decide))
  have aS6 : startsWithStr "xdist-scope:"
      (pyRstrip ("xdist-scope: " ++ r.xdist_scope.getD "")) = true := by
    rw [e_scope]; exact sw_pyRstrip_self _ _ (by decide)
  have aN0 : startsWithStr "xdist-node:" (pyRstrip (_header "general test info")) = false := by
    decide
  have aN1 : startsWithStr "xdist-node:" (pyRstrip ("test: " ++ r.nodeid)) = false := by
    rw [e_test]; exact not_sw_pyRstrip _ _ _ (by decide) (Or.inl (by decide))
  have aN2 : startsWithStr "xdist-node:" (pyRstrip ("result: " ++ r.result)) = false := by
    rw [e_res]; exact not_sw_pyRstrip _ _ _ (by decide) (Or.inl (by decide))
  have aN3 : startsWithStr "xdist-node:"
      (pyRstrip ("duration: " ++ floatRepr r.duration ++ "s")) = false := by
    rw [e_dur]; exact not_sw_pyRstrip _ _ _ (by decide) (Or.inl (by decide))
  have aN4 : startsWithStr "xdist-node:"
      (pyRstrip ("xdist-scope: " ++ r.xdist_scope.getD "")) = false := by
    rw [e_scope]; exact not_sw_pyRstrip _ _ _ (by decide) (Or.inr (by decide))
  have aN5 : startsWithStr "xdist-node:"
      (pyRstrip ("xdist-dist: " ++ r.xdist_dist.getD "")) = false := by
    rw [e_dist]; exact not_sw_pyRstrip _ _ _ (by decide) (Or.inl (by decide))
  have aN6 : startsWithStr "xdist-node:"
      (pyRstrip ("xdist-node: " ++ r.xdist_worker.getD "")) = true := by
    rw [e_node]; exact sw_pyRstrip_self _ _ (by decide)
  have aD0 : startsWithStr "xdist-dist:" (pyRstrip (_header "general test info")) = false := by
    decide
  have aD1 : startsWithStr "xdist-dist:" (pyRstrip ("test: " ++ r.nodeid)) = false := by
    rw [e_test]; exact not_sw_pyRstrip _ _ _ (by decide) (Or.inl (by decide))
  have aD2 : startsWithStr "xdist-dist:" (pyRstrip ("result: " ++ r.result)) = false := by
    rw [e_res]; exact not_sw_pyRstrip _ _ _ (by decide) (Or.inl (by decide))
  have aD3 : startsWithStr "xdist-dist:"
      (pyRstrip ("duration: " ++ floatRepr r.duration ++ "s")) = false := by
    rw [e_dur]; exact not_sw_pyRstrip _ _ _ (by decide) (Or.inl (by decide))
  have aD4 : startsWithStr "xdist-dist:"
      (pyRstrip ("xdist-scope: " ++ r.xdist_scope.getD "")) = false := by
    rw [e_scope]; exact not_sw_pyRstrip _ _ _ (by decide) (Or.inr (by decide))
  have aD5 : startsWithStr "xdist-dist:"
      (pyRstrip ("xdist-node: " ++ r.xdist_worker.getD "")) = false := by
    rw [e_node]; exact not_sw_pyRstrip _ _ _ (by decide) (Or.inl (by decide))
  have aD6 : startsWithStr "xdist-dist:"
      (pyRstrip ("xdist-dist: " ++ r.xdist_dist.getD "")) = true := by
    rw [e_dist]; exact sw_pyRstrip_self _ _ (by decide)
  unfold pubdir
  rw [h]
  simp only [Bool.not_true, Bool.false_eq_true, if_false]
  refine ⟨_, rfl, ?_, ?_, ?_, ?_, ?_, ?_, ?_, ?_, ?_, ?_⟩
  · simp
  · simp
  · simp
  · cases hs : truthyOptStr r.xdist_scope <;>
      cases hw : truthyOptStr r.xdist_worker <;>
        cases hd : (truthyOptStr r.xdist_dist && !(r.xdist_dist.getD "" == "no")) <;>
          simp [hs, hw, hd, List.any_append, aS0, aS1, aS2, aS3, aS4, aS5, aS6]
  · cases hs : truthyOptStr r.xdist_scope <;>
      cases hw : truthyOptStr r.xdist_worker <;>
        cases hd : (truthyOptStr r.xdist_dist && !(r.xdist_dist.getD "" == "no")) <;>
          simp [hs, hw, hd, List.any_append, aN0, aN1, aN2, aN3, aN4, aN5, aN6]
  · cases hs : truthyOptStr r.xdist_scope <;>
      cases hw : truthyOptStr r.xdist_worker <;>
        cases hd : (truthyOptStr r.xdist_dist && !(r.xdist_dist.getD "" == "no")) <;>
          simp [hs, hw, hd, List.any_append, aD0, aD1, aD2, aD3, aD4, aD5, aD6]
  · cases r.excinfo <;> simp
  · cases hs : (r.stdout == "") <;> simp [hs]
  · cases hs : (r.stderr == "") <;> simp [hs]
  · cases hs : (r.log == "") <;> simp [hs]

/-- Witness for claim_C8 at a concrete record with a truthy destination
path: the materialized brief exists and its general section carries the
testId line. -/
theorem claim_C8_witness :
    ∃ b : Brief, (pubdir emptyScopeRecord fsEmpty).2 = some b
      ∧ pyRstrip ("test: " ++ emptyScopeRecord.nodeid) ∈ b.general := by
  obtain ⟨b, hb, h1, _⟩ := claim_C8 emptyScopeRecord fsEmpty (by decide)
  exact ⟨b, hb, h1⟩

/-- C8 counterexample: a record whose xdist_scope is present but empty (as
create_result builds for a loadgroup nodeid ending in the group marker) is
materialized with no xdist-scope line in its general section, although the
claim as stated requires the scope line whenever scope is present. -/
theorem claim_C8_cex :
    emptyScopeRecord.xdist_scope.isSome = true
    ∧ ((pubdir emptyScopeRecord fsEmpty).2.map
        (fun b => b.general.any (startsWithStr "xdist-scope:"))) = some false := by
  refine ⟨rfl, by decide⟩

lemma strListOf_jstr (l : List String) :
    strListOf (l.map JVal.jstr) = some l := by
  induction l with
  | nil => rfl
  | cons x xs ih => simp [strListOf, asStr, ih]

lemma excInfo_roundtrip (e : ExcInfo) :
    excInfoFromDict (excInfoToDict e) = some e := by
  obtain ⟨t, v, tb⟩ := e
  simp [excInfoToDict, excInfoFromDict, getField, asStr, asStrList, strListOf_jstr]

/-- C9: serializing a ResultRecord to its persisted structured form (the
dict dumped to result.json and posted to the publish url) and re-parsing
that form yields the record unchanged, field for field. -/
theorem claim_C9 (r : TestResult) :
    testResultFromDict (testResultToDict r) = some r := by
  obtain ⟨ty, res, nid, nm, st, sp, du, so, se, lg, xd, xw, xs, pp, exc⟩ := r
  cases xd <;> cases xw <;> cases xs <;> cases pp <;> cases exc
  all_goals
    first
      | rfl
      | (rename_i e
         obtain ⟨et, ev, etb⟩ := e
         simp [testResultFromDict, testResultToDict, excInfoToDict, excFieldFromDict,
           excInfoFromDict, getField, strField, numField, optStrField, optStrToJ,
           asStr, asNum, asOptStr, asStrList, strListOf_jstr])

lemma countPosts_append (a b : List SinkEvent) :
    countPosts (a ++ b) = countPosts a + countPosts b := by
  simp [countPosts, List.countP_append]

lemma countPosts_leaf_opt (c : Bool) (x : String) :
    countPosts (if c = true then [SinkEvent.leafWrite x] else []) = 0 := by
  cases c <;> rfl

/-- C10: in a dispatch where both a publish url and a pubdir root are
configured (truthy), the directory sink runs strictly before the network
post: if allocation or leaf writing raises, the hook fails with no post
event in its trace; if the hook completes, its trace is the directory
events followed by exactly one post; and the post count is one exactly
when the directory sink completed without error. -/
theorem claim_C10 (publishUrl pubdirPath : Option String) (nodeid : String)
    (excinfo : Option ExcDescriptor) (envWorker : Option String) (dist : String)
    (startT stopT durT : ℚ) (so se lg filt : String)
    (allocRaises leafRaises : Bool) (fs : PubFS)
    (hq : truthyOptStr publishUrl = true) (hp : truthyOptStr pubdirPath = true) :
    ((pytest_runtest_makereport true publishUrl pubdirPath nodeid excinfo envWorker dist
        startT stopT durT so se lg filt allocRaises leafRaises fs).failed = true →
      countPosts (pytest_runtest_makereport true publishUrl pubdirPath nodeid excinfo
        envWorker dist startT stopT durT so se lg filt allocRaises leafRaises fs).events = 0)
    ∧ ((pytest_runtest_makereport true publishUrl pubdirPath nodeid excinfo envWorker dist
        startT stopT durT so se lg filt allocRaises leafRaises fs).failed = false →
      ∃ pre, (pytest_runtest_makereport true publishUrl pubdirPath nodeid excinfo envWorker
          dist startT stopT durT so se lg filt allocRaises leafRaises fs).events
          = pre ++ [SinkEvent.post (publishUrl.getD "")]
        ∧ countPosts pre = 0)
    ∧ (countPosts (pytest_runtest_makereport true publishUrl pubdirPath nodeid excinfo
        envWorker dist startT stopT durT so se lg filt allocRaises leafRaises fs).events = 1
      ↔ (pytest_runtest_makereport true publishUrl pubdirPath nodeid excinfo envWorker dist
          startT stopT durT so se lg filt allocRaises leafRaises fs).failed = false) := by
  cases allocRaises with
  | true =>
    simp only [pytest_runtest_makereport, hp, hq, Bool.not_true, Bool.and_false,
      Bool.false_and, Bool.false_eq_true, if_false, Bool.and_true, Bool.true_and, if_true]
    refine ⟨fun _ => rfl, fun h => absurd h (by simp), ?_⟩
    simp [countPosts]
  | false =>
    simp only [pytest_runtest_makereport, hp, hq, Bool.not_true, Bool.and_false,
      Bool.false_and, Bool.false_eq_true, if_false, Bool.and_true, Bool.true_and, if_true]
    cases hlf : (truthyOptStr (create_result nodeid excinfo envWorker dist startT stopT
        durT so se lg filt pubdirPath fs).1.pubdir_path && leafRaises) with
    | true =>
      simp only [hlf, if_true]
      refine ⟨fun _ => rfl, fun h => absurd h (by simp), ?_⟩
      constructor
      · intro h1
        simp [countPosts] at h1
      · intro h1
        exact absurd h1 (by simp)
    | false =>
      simp only [hlf, Bool.false_eq_true, if_false]
      refine ⟨fun h => absurd h (by simp), fun _ => ?_, ?_⟩
      · refine ⟨[SinkEvent.alloc "bucket"] ++ (if truthyOptStr (create_result nodeid excinfo
          envWorker dist startT stopT durT so se lg filt pubdirPath fs).1.pubdir_path = true
          then [SinkEvent.leafWrite ((create_result nodeid excinfo envWorker dist startT
            stopT durT so se lg filt pubdirPath fs).1.pubdir_path.getD "")] else []), rfl, ?_⟩
        rw [countPosts_append, countPosts_leaf_opt]
        rfl
      · constructor
        · intro _
          trivial
        · intro _
          rw [countPosts_append, countPosts_append, countPosts_leaf_opt]
          simp [countPosts]

/-- Witness for claim_C10 at a concrete dispatch with both destinations
configured and no failures: the trace carries exactly one post. -/
theorem claim_C10_witness :
    countPosts (pytest_runtest_makereport true (some "http://collector") (some "root")
      "a::b" none none "no" 0 0 0 "" "" "" "bad" false false fsEmpty).events = 1 :=
  (claim_C10 (some "http://collector") (some "root") "a::b" none none "no" 0 0 0
    "" "" "" "bad" false false fsEmpty (by decide) (by decide)).2.2.mpr (by decide)
